import Mathlib

/-!
Verification of the week-bucketing and database-accessor logic of
`GetInfoFromDatabases.py` (pyUtilities), as a shallow embedding.

Modelling choices, fixed throughout:

* A Python `datetime.datetime` (timezone-naive, UTC) is modelled as an `Int`:
  the number of seconds since 1970-01-01T00:00:00 UTC.  Differences of
  datetimes are `timedelta` values, also in seconds; `timedelta.days` is
  floor-division of the seconds by 86400 (Python normalises a timedelta so
  that `days` is the floor), and the Python-2 expression `int(delta.days/7)`
  is floor-division of `days` by 7 (both operands are ints, so `/` is floor
  division in Python 2).
* Arbitrary Python values passed to `GetWeekOfDate` are modelled by the
  inductive type `PyObj`; `isinstance(time, datetime.datetime)` holds exactly
  for the `PyObj.dt` constructor.
* Python exceptions are modelled by the `PyError` type carried in `Except`.
* The external run-info collaborator (ROOT `EXORunInfoManager` metadata) and
  the trending/DAQ MySQL database are modelled by an `Env` record of total
  functions; numeric trending values are modelled as rationals (the Python
  `float` conversion is the identity on them).  Interactions with the DAQ
  database (connection creation, cursor execution) are logged explicitly as
  a `List DAQOp` result component.
-/

/-- Python exceptions raised by the code under verification. -/
inductive PyError where
  | typeError : PyError
  | valueError : PyError
  | dataError : PyError
  | indexError : PyError
deriving DecidableEq, Repr

/-- An arbitrary Python object passed into `GetWeekOfDate`: a datetime
(seconds since the Unix epoch, UTC), or one of the non-datetime shapes the
caller might pass (a string, an int, `None`). -/
inductive PyObj where
  | dt : Int → PyObj
  | str : String → PyObj
  | int : Int → PyObj
  | none : PyObj
deriving DecidableEq, Repr

/-- Truth value of `isinstance(time, datetime.datetime)`. -/
def PyObj.isDatetime : PyObj → Bool
  | .dt _ => true
  | _ => false

/-- Component `days` of a Python `timedelta` holding `d` seconds: Python
normalises so that `days = floor(totalSeconds / 86400)`. -/
def tdDays (d : Int) : Int := Int.fdiv d 86400

/-- Python-2 expression `int(delta_t.days/7)` for a timedelta of `d` seconds:
`days/7` is floor division of two ints, and `int` is the identity on it. -/
def wkOf (d : Int) : Int := Int.fdiv (tdDays d) 7

/-- Loop body of `GetWeekOfDate` (`GetInfoFromDatabases.py:177-191`), with the
break list still to be walked and the accumulator `num_leading_weeks`.  The
source iterates `i` over `0 .. len(breaks)-2`: if `breaks[i] <= time <
breaks[i+1]` it returns `int((time-breaks[i]).days/7) + num_leading_weeks`,
otherwise it adds `int((breaks[i+1]-breaks[i]).days/7) + 1` to the
accumulator; after the loop it returns `int((time-breaks[-1]).days/7)` plus
the accumulator.  The `[]` case is unreachable from `GetWeekOfDate`, which
only calls this with a nonempty list (on `[]` the source itself would fail
earlier, indexing `breaks[0]`). -/
def weekLoop (t : Int) : List Int → Int → Int
  | b0 :: b1 :: rest, acc =>
    if b0 ≤ t ∧ t < b1 then wkOf (t - b0) + acc
    else weekLoop t (b1 :: rest) (acc + (wkOf (b1 - b0) + 1))
  | [b], acc => wkOf (t - b) + acc
  | [], acc => acc

/-- Body of `GetWeekOfDate` after the break list `breaks` is available
(`GetInfoFromDatabases.py:170-191`): first the `isinstance` check (raising
`TypeError` on a non-datetime), then the comparison with `breaks[0]`
(raising `IndexError` on an empty list, `ValueError` if the time precedes
the first break), then the interval walk. -/
def GetWeekOfDate (breaks : List Int) (time : PyObj) : Except PyError Int :=
  match time with
  | .dt t =>
    match breaks with
    | [] => .error .indexError
    | b0 :: rest =>
      if t < b0 then .error .valueError
      else .ok (weekLoop t (b0 :: rest) 0)
  | _ => .error .typeError

/-- Day number of a civil date (days since 1970-01-01, proleptic Gregorian);
used to give the hardcoded constant `datetime.datetime(2011, 5, 1)` and the
parsed run start times a concrete value in seconds. -/
def daysFromCivil (y m d : Int) : Int :=
  let yAdj : Int := if m ≤ 2 then y - 1 else y
  let era : Int := Int.fdiv yAdj 400
  let yoe : Int := yAdj - era * 400
  let mp : Int := Int.emod (m + 9) 12
  let doy : Int := Int.fdiv (153 * mp + 2) 5 + d - 1
  let doe : Int := yoe * 365 + Int.fdiv yoe 4 - Int.fdiv yoe 100 + doy
  era * 146097 + doe - 719468

/-- Seconds-since-epoch value of a civil date-time. -/
def civilToSeconds (y m d h mi s : Int) : Int :=
  daysFromCivil y m d * 86400 + h * 3600 + mi * 60 + s

/-- The hardcoded first break point `datetime.datetime(2011, 5, 1)`
(`GetInfoFromDatabases.py:159`). -/
def epoch2011 : Int := civilToSeconds 2011 5 1 0 0 0

/-- Sum of `floor((B[j+1]-B[j]).days/7) + 1` over the intervals `j < i`: the
`accumulated_weeks` of the specification's reference algorithm after `i`
fully-elapsed break intervals. -/
def specAccum (B : List Int) (i : Nat) : Int :=
  ((List.range i).map (fun j => wkOf (B.getD (j + 1) 0 - B.getD j 0) + 1)).sum

/-- Reference algorithm of the specification, written from its words: if
`time` lies in a half-open interval `[B[i], B[i+1])` (for a strictly
increasing break list the interval is unique; `find?` locates it), return
`floor((time - B[i]).days / 7)` plus the accumulated whole-week counts of
the prior intervals; otherwise (`time >= B[n-1]`), return
`floor((time - B[n-1]).days / 7)` plus the accumulation over all `n-1`
intervals. -/
def specWeekOfDate (B : List Int) (t : Int) : Int :=
  match (List.range (B.length - 1)).find?
      (fun i => B.getD i 0 ≤ t && t < B.getD (i + 1) 0) with
  | some i => wkOf (t - B.getD i 0) + specAccum B i
  | none => wkOf (t - B.getD (B.length - 1) 0) + specAccum B (B.length - 1)

/-- Python slicing `s[:-k]` (for `k > 0`) on a string modelled as a character
list: all but the last `k` characters, the empty list when `len(s) <= k`. -/
def pyDropLast (s : List Char) (k : Nat) : List Char := s.take (s.length - k)

/-- Numeric value of a decimal digit character. -/
def digitVal (c : Char) : Int := Int.ofNat c.toNat - 48

/-- Leap-year test of the Gregorian calendar. -/
def isLeapYear (y : Int) : Bool :=
  Int.emod y 4 = 0 && (Int.emod y 100 ≠ 0 || Int.emod y 400 = 0)

/-- Number of days of month `m` in year `y`. -/
def daysInMonth (y m : Int) : Int :=
  if m = 2 then (if isLeapYear y then 29 else 28)
  else if m = 4 || m = 6 || m = 9 || m = 11 then 30
  else 31

/-- Model of `datetime.datetime.strptime(s, "%Y-%m-%dT%H:%M:%S")` on the
zero-padded strings the run database serves: a fixed-shape parse of
`YYYY-MM-DDTHH:MM:SS` into seconds since the epoch, `none` when the string
does not match the format or a field is out of range (Python raises
`ValueError` in that case). -/
def strptimeYmdHMS : List Char → Option Int
  | [y1, y2, y3, y4, c1, m1, m2, c2, d1, d2, c3, h1, h2, c4, i1, i2, c5, s1, s2] =>
    if c1 = '-' && c2 = '-' && c3 = 'T' && c4 = ':' && c5 = ':' &&
        y1.isDigit && y2.isDigit && y3.isDigit && y4.isDigit &&
        m1.isDigit && m2.isDigit && d1.isDigit && d2.isDigit &&
        h1.isDigit && h2.isDigit && i1.isDigit && i2.isDigit &&
        s1.isDigit && s2.isDigit then
      let y := 1000 * digitVal y1 + 100 * digitVal y2 + 10 * digitVal y3 + digitVal y4
      let m := 10 * digitVal m1 + digitVal m2
      let d := 10 * digitVal d1 + digitVal d2
      let h := 10 * digitVal h1 + digitVal h2
      let mi := 10 * digitVal i1 + digitVal i2
      let s := 10 * digitVal s1 + digitVal s2
      if 1 ≤ m && m ≤ 12 && 1 ≤ d && d ≤ daysInMonth y m &&
          h ≤ 23 && mi ≤ 59 && s ≤ 59 then
        some (civilToSeconds y m d h mi s)
      else none
    else none
  | _ => none

/-- The external collaborators, modelled as total functions: the run-info
catalog fields consumed by the code (`FindMetaData(..).AsString()`), and the
rows the `offlineTrending` table returns for the two query shapes used. -/
structure Env where
  startTimeStr : Nat → List Char
  runType : Nat → String
  sourcePosition : Nat → String
  sourceType : Nat → String
  comptonRows : Nat → List (String × Rat)
  purityRows : Nat → List Rat

/-- Function `GetStartTimeOfRun` (`GetInfoFromDatabases.py:81-92`): read the
`startTime` metadata string, strip the last 5 characters (timezone suffix),
then the last 4 (millisecond suffix), and parse the remainder with the fixed
format `%Y-%m-%dT%H:%M:%S`; `none` models the `ValueError` that `strptime`
raises when the remainder does not match. -/
def GetStartTimeOfRun (env : Env) (runNo : Nat) : Option Int :=
  strptimeYmdHMS (pyDropLast (pyDropLast (env.startTimeStr runNo) 5) 4)

/-- An interaction with the trending/DAQ MySQL database: `MakeDAQConnection()`
(which opens a connection the first time it runs), or `cursor.execute` with a
query string and its run-number argument. -/
inductive DAQOp where
  | makeConnection : DAQOp
  | execute : String → String → DAQOp
deriving DecidableEq, Repr

/-- Query text used by `GetComptonSourceLocationOfRun`
(`GetInfoFromDatabases.py:60-61`). -/
def comptonQuery : String :=
  "SELECT path, value FROM offlineTrending " ++
    "WHERE runIndex = %s AND path LIKE \"SourcePositionSA/%%\""

/-- Query text used by `GetPurityOfRun` (`GetInfoFromDatabases.py:114-115`). -/
def purityQuery : String :=
  "SELECT value FROM offlineTrending " ++
    "WHERE runIndex = %s AND path = \"ElectronLifetimeAR/tau\""

/-- Function `GetTypeOfRun` (`GetInfoFromDatabases.py:27-33`): the `runType`
metadata field of the run-info collaborator; it touches no DAQ database. -/
def GetTypeOfRun (env : Env) (runNo : Nat) : String := env.runType runNo

/-- Function `GetNominalSourceLocationOfRun` (`GetInfoFromDatabases.py:35-44`):
raise `ValueError` unless the run type is `"Data-Source calibration"`,
otherwise return the `sourcePosition` metadata field.  The second component
logs the trending/DAQ-database operations performed (always none here: the
function only talks to the run-info collaborator). -/
def GetNominalSourceLocationOfRun (env : Env) (runNo : Nat) :
    Except PyError String × List DAQOp :=
  if GetTypeOfRun env runNo ≠ "Data-Source calibration" then
    (.error .valueError, [])
  else (.ok (env.sourcePosition runNo), [])

/-- Function `GetSourceTypeOfRun` (`GetInfoFromDatabases.py:71-79`): raise
`ValueError` unless the run type is `"Data-Source calibration"`, otherwise
return the `sourceType` metadata field; no DAQ-database operation. -/
def GetSourceTypeOfRun (env : Env) (runNo : Nat) :
    Except PyError String × List DAQOp :=
  if GetTypeOfRun env runNo ≠ "Data-Source calibration" then
    (.error .valueError, [])
  else (.ok (env.sourceType runNo), [])

/-- Python dictionary assignment `pos[k] = v` on a dictionary modelled as an
association list: overwrite an existing binding of `k`, else append. -/
def dictInsert (d : List (Char × Rat)) (k : Char) (v : Rat) : List (Char × Rat) :=
  if d.any (fun p => p.1 = k) then
    d.map (fun p => if p.1 = k then (k, v) else p)
  else d ++ [(k, v)]

/-- Loop `for i in range(3): row = cursor.fetchone(); pos[row[0][-1]] = float(row[1])`
of `GetComptonSourceLocationOfRun` (`GetInfoFromDatabases.py:65-68`):
`row[0][-1]` raises `IndexError` when the path string is empty. -/
def comptonPosLoop : List (String × Rat) → List (Char × Rat) →
    Except PyError (List (Char × Rat))
  | [], acc => .ok acc
  | (path, v) :: rest, acc =>
    if path.isEmpty then .error .indexError
    else comptonPosLoop rest (dictInsert acc path.back v)

/-- Function `GetComptonSourceLocationOfRun` (`GetInfoFromDatabases.py:46-69`):
first the run-type precondition (raising `ValueError` before any DAQ
operation), then the connection, the trending query, the `rowcount != 3`
check raising `MySQLdb.DataError`, and the position-dictionary loop. -/
def GetComptonSourceLocationOfRun (env : Env) (runNo : Nat) :
    Except PyError (List (Char × Rat)) × List DAQOp :=
  if GetTypeOfRun env runNo ≠ "Data-Source calibration" then
    (.error .valueError, [])
  else
    let rows := env.comptonRows runNo
    let ops : List DAQOp := [.makeConnection, .execute comptonQuery (toString runNo)]
    if rows.length ≠ 3 then (.error .dataError, ops)
    else (comptonPosLoop rows [], ops)

/-- Function `GetPurityOfRun` (`GetInfoFromDatabases.py:100-119`): the guard
`GetTypeOfRun(runNo) != "Data-Source calibration" or GetSourceTypeOfRun(runNo)
not in ["Th-228:weak", "Th-228:strong"]` short-circuits, so a non-source run
raises `ValueError` without evaluating `GetSourceTypeOfRun`; when the run type
is source calibration, `GetSourceTypeOfRun`'s internal recheck passes and it
returns the `sourceType` field.  Only past the guard come the connection, the
query, the `rowcount != 1` check raising `MySQLdb.DataError`, and the `float`
conversion of the single fetched value (the identity on our rational model). -/
def GetPurityOfRun (env : Env) (runNo : Nat) : Except PyError Rat × List DAQOp :=
  if GetTypeOfRun env runNo ≠ "Data-Source calibration" then
    (.error .valueError, [])
  else if env.sourceType runNo ∉ ["Th-228:weak", "Th-228:strong"] then
    (.error .valueError, [])
  else
    let rows := env.purityRows runNo
    let ops : List DAQOp := [.makeConnection, .execute purityQuery (toString runNo)]
    if rows.length ≠ 1 then (.error .dataError, ops)
    else (.ok (rows.headD 0), ops)

/-- Holder for the process-wide mutable state
`GetWeekOfDate.MandatoryWeekBreaks`, initialised to `None`
(`GetInfoFromDatabases.py:195`). -/
abbrev BreakCache := Option (List Int)

/-- Full `GetWeekOfDate` (`GetInfoFromDatabases.py:140-191`) with its lazy
state: when the cache is `None` the break list is built first — `[]` is
stored, then `datetime(2011, 5, 1)` is appended, then the start times of runs
2332, 2401 and 2424 are fetched and appended, each shifted back by the
10-second `shift_back` (`GetInfoFromDatabases.py:153-168`).  A `strptime`
failure inside a `GetStartTimeOfRun` call raises `ValueError` and leaves the
partially-appended list cached, exactly as the Python mutation does.  Only
after the build come the `isinstance` check and the comparison with
`breaks[0]`.  Returns the call's outcome and the cache afterwards. -/
def GetWeekOfDateStateful (env : Env) (cache : BreakCache) (time : PyObj) :
    Except PyError Int × BreakCache :=
  match cache with
  | some breaks => (GetWeekOfDate breaks time, some breaks)
  | none =>
    match GetStartTimeOfRun env 2332 with
    | none => (.error .valueError, some [epoch2011])
    | some t1 =>
      match GetStartTimeOfRun env 2401 with
      | none => (.error .valueError, some [epoch2011, t1 - 10])
      | some t2 =>
        match GetStartTimeOfRun env 2424 with
        | none => (.error .valueError, some [epoch2011, t1 - 10, t2 - 10])
        | some t3 =>
          let breaks := [epoch2011, t1 - 10, t2 - 10, t3 - 10]
          (GetWeekOfDate breaks time, some breaks)

/-- Predicate "the outcome is a `MySQLdb.DataError`". -/
def isDataError {α : Type} : Except PyError α → Bool
  | .error .dataError => true
  | _ => false

/-- Sample environment: a physics (non-source) run. -/
def envPhysics : Env :=
  { startTimeStr := fun _ => [], runType := fun _ => "Data-Physics",
    sourcePosition := fun _ => "", sourceType := fun _ => "",
    comptonRows := fun _ => [], purityRows := fun _ => [] }

/-- Sample environment: a thorium source-calibration run with well-formed
collaborator data. -/
def envSource : Env :=
  { startTimeStr := fun _ => "2011-09-12T03:04:05+0000.000".toList,
    runType := fun _ => "Data-Source calibration",
    sourcePosition := fun _ => "S5: P4_px (  25.4,   0.0,   0.0)",
    sourceType := fun _ => "Th-228:weak",
    comptonRows := fun _ =>
      [("SourcePositionSA/x", 1), ("SourcePositionSA/y", 2), ("SourcePositionSA/z", 3)],
    purityRows := fun _ => [3] }

/-- Decidable equality of `GetWeekOfDate` outcomes, for concrete evaluation. -/
instance : DecidableEq (Except PyError Int) := fun a b =>
  match a, b with
  | .ok x, .ok y =>
    decidable_of_iff (x = y) ⟨fun h => h ▸ rfl, fun h => Except.ok.inj h⟩
  | .error x, .error y =>
    decidable_of_iff (x = y) ⟨fun h => h ▸ rfl, fun h => Except.error.inj h⟩
  | .ok _, .error _ => .isFalse (fun h => Except.noConfusion h)
  | .error _, .ok _ => .isFalse (fun h => Except.noConfusion h)

/-! Sanity checks on concrete values. -/

example : epoch2011 = 1304208000 := by decide
example : daysFromCivil 1970 1 1 = 0 := by decide
example : tdDays (14 * 86400) = 14 := by decide
example : wkOf (14 * 86400) = 2 := by decide
example : wkOf (-1) = -1 := by decide

example :
    GetStartTimeOfRun
      { startTimeStr := fun _ => "2011-09-12T03:04:05+0000.000".toList,
        runType := fun _ => "", sourcePosition := fun _ => "",
        sourceType := fun _ => "", comptonRows := fun _ => [],
        purityRows := fun _ => [] } 7 =
    some (civilToSeconds 2011 9 12 3 4 5) := by decide

/-! Helper lemmas about the week arithmetic. -/

lemma wkOf_eq_ediv (d : Int) : wkOf d = d / 86400 / 7 := by
  unfold wkOf tdDays
  rw [Int.fdiv_eq_ediv _ (by norm_num), Int.fdiv_eq_ediv _ (by norm_num)]

lemma wkOf_mono {a b : Int} (h : a ≤ b) : wkOf a ≤ wkOf b := by
  rw [wkOf_eq_ediv, wkOf_eq_ediv]
  exact Int.ediv_le_ediv (by norm_num) (Int.ediv_le_ediv (by norm_num) h)

lemma wkOf_nonneg {d : Int} (h : 0 ≤ d) : 0 ≤ wkOf d := by
  rw [wkOf_eq_ediv]
  exact Int.ediv_nonneg (Int.ediv_nonneg h (by norm_num)) (by norm_num)

lemma weekLoop_ge_acc (t : Int) :
    ∀ (rest : List Int) (b0 acc : Int), List.Chain' (· < ·) (b0 :: rest) →
      b0 ≤ t → acc ≤ weekLoop t (b0 :: rest) acc := by
  intro rest
  induction rest with
  | nil =>
    intro b0 acc _ hle
    simpa [weekLoop] using add_le_add_right (wkOf_nonneg (by omega)) acc
  | cons b1 rest ih =>
    intro b0 acc hchain hle
    rw [weekLoop]
    by_cases hin : b0 ≤ t ∧ t < b1
    · simpa [hin] using add_le_add_right (wkOf_nonneg (by omega)) acc
    · have hb1 : b1 ≤ t := by
        rcases not_and_or.mp hin with h | h
        · omega
        · omega
      have hlt : b0 < b1 := (List.chain'_cons.mp hchain).1
      have := ih b1 (acc + (wkOf (b1 - b0) + 1)) (List.chain'_cons.mp hchain).2 hb1
      have hw : 0 ≤ wkOf (b1 - b0) := wkOf_nonneg (by omega)
      simp only [hin, if_false]
      omega

lemma weekLoop_mono {t1 t2 : Int} (h12 : t1 ≤ t2) :
    ∀ (rest : List Int) (b0 acc : Int), List.Chain' (· < ·) (b0 :: rest) →
      b0 ≤ t1 → weekLoop t1 (b0 :: rest) acc ≤ weekLoop t2 (b0 :: rest) acc := by
  intro rest
  induction rest with
  | nil =>
    intro b0 acc _ _
    simpa [weekLoop] using add_le_add_right (wkOf_mono (by omega)) acc
  | cons b1 rest ih =>
    intro b0 acc hchain hle
    have hlt : b0 < b1 := (List.chain'_cons.mp hchain).1
    have htail : List.Chain' (· < ·) (b1 :: rest) := (List.chain'_cons.mp hchain).2
    rw [weekLoop, weekLoop]
    by_cases h1 : t1 < b1
    · by_cases h2 : t2 < b1
      · have hin1 : b0 ≤ t1 ∧ t1 < b1 := ⟨hle, h1⟩
        have hin2 : b0 ≤ t2 ∧ t2 < b1 := ⟨by omega, h2⟩
        simpa [hin1, hin2] using add_le_add_right (wkOf_mono (by omega)) acc
      · have hin1 : b0 ≤ t1 ∧ t1 < b1 := ⟨hle, h1⟩
        have hnin2 : ¬(b0 ≤ t2 ∧ t2 < b1) := by omega
        simp only [hin1, and_self, if_true, hnin2, if_false]
        have hge := weekLoop_ge_acc t2 rest b1 (acc + (wkOf (b1 - b0) + 1)) htail (by omega)
        have hwm : wkOf (t1 - b0) ≤ wkOf (b1 - b0) := wkOf_mono (by omega)
        omega
    · have hnin1 : ¬(b0 ≤ t1 ∧ t1 < b1) := by omega
      have hnin2 : ¬(b0 ≤ t2 ∧ t2 < b1) := by omega
      simp only [hnin1, hnin2, if_false]
      exact ih b1 (acc + (wkOf (b1 - b0) + 1)) htail (by omega)

lemma specAccum_zero (B : List Int) : specAccum B 0 = 0 := by
  simp [specAccum]

lemma specAccum_cons (b0 b1 : Int) (rest : List Int) (i : Nat) :
    specAccum (b0 :: b1 :: rest) (i + 1) =
      (wkOf (b1 - b0) + 1) + specAccum (b1 :: rest) i := by
  unfold specAccum
  rw [List.range_succ_eq_map]
  simp [List.map_map, Function.comp_def]

lemma specWeekOfDate_single (b t : Int) : specWeekOfDate [b] t = wkOf (t - b) := by
  simp [specWeekOfDate, specAccum]

lemma specWeekOfDate_cons_in (b0 b1 : Int) (rest : List Int) (t : Int)
    (h0 : b0 ≤ t) (h1 : t < b1) :
    specWeekOfDate (b0 :: b1 :: rest) t = wkOf (t - b0) := by
  unfold specWeekOfDate
  have hlen : (b0 :: b1 :: rest).length - 1 = rest.length + 1 := by simp
  rw [hlen, List.range_succ_eq_map]
  rw [List.find?_cons_of_pos _ (by simp [h0, h1])]
  simp [specAccum_zero]

lemma specWeekOfDate_cons_skip (b0 b1 : Int) (rest : List Int) (t : Int)
    (h : b1 ≤ t) :
    specWeekOfDate (b0 :: b1 :: rest) t =
      (wkOf (b1 - b0) + 1) + specWeekOfDate (b1 :: rest) t := by
  unfold specWeekOfDate
  have hlen : (b0 :: b1 :: rest).length - 1 = rest.length + 1 := by simp
  have hlen' : (b1 :: rest).length - 1 = rest.length := by simp
  rw [hlen, hlen', List.range_succ_eq_map]
  rw [List.find?_cons_of_neg _ (by simp; omega)]
  rw [List.find?_map]
  have hcomp :
      ((fun i => decide ((b0 :: b1 :: rest).getD i 0 ≤ t) &&
          decide (t < (b0 :: b1 :: rest).getD (i + 1) 0)) ∘ Nat.succ) =
      (fun i => decide ((b1 :: rest).getD i 0 ≤ t) &&
          decide (t < (b1 :: rest).getD (i + 1) 0)) := by
    funext j
    simp [Function.comp_def]
  rw [hcomp]
  cases hfind : (List.range rest.length).find?
      (fun i => decide ((b1 :: rest).getD i 0 ≤ t) &&
        decide (t < (b1 :: rest).getD (i + 1) 0)) with
  | none =>
    simp only [Option.map]
    rw [specAccum_cons]
    have hgd : (b0 :: b1 :: rest).getD (rest.length + 1) 0 =
        (b1 :: rest).getD rest.length 0 := rfl
    rw [hgd]
    ring
  | some i =>
    simp only [Option.map]
    rw [specAccum_cons]
    have hgd : (b0 :: b1 :: rest).getD (i + 1) 0 = (b1 :: rest).getD i 0 := rfl
    rw [hgd]
    ring

lemma weekLoop_eq_spec (t : Int) :
    ∀ (rest : List Int) (b0 acc : Int), b0 ≤ t →
      weekLoop t (b0 :: rest) acc = specWeekOfDate (b0 :: rest) t + acc := by
  intro rest
  induction rest with
  | nil =>
    intro b0 acc _
    rw [weekLoop, specWeekOfDate_single]
  | cons b1 rest ih =>
    intro b0 acc hle
    rw [weekLoop]
    by_cases hin : b0 ≤ t ∧ t < b1
    · rw [if_pos hin, specWeekOfDate_cons_in b0 b1 rest t hin.1 hin.2]
    · have hb1 : b1 ≤ t := by omega
      rw [if_neg hin, ih b1 _ hb1, specWeekOfDate_cons_skip b0 b1 rest t hb1]
      ring

/-- C1: for every strictly increasing break list and every datetime at or
after the first break, `GetWeekOfDate` returns exactly the value of the
specification's reference algorithm `specWeekOfDate` (interval membership in
half-open intervals with boundary assigned to the starting interval, floor
day-division by 7, and the accumulated `floor(days/7) + 1` counts of prior
intervals, the after-the-last-break case included). -/
theorem GetWeekOfDate_eq_specAlgorithm (b0 : Int) (rest : List Int) (t : Int)
    (_hchain : List.Chain' (· < ·) (b0 :: rest)) (ht : b0 ≤ t) :
    GetWeekOfDate (b0 :: rest) (.dt t) = .ok (specWeekOfDate (b0 :: rest) t) := by
  simp only [GetWeekOfDate]
  rw [if_neg (by omega), weekLoop_eq_spec t rest b0 0 ht, add_zero]

/-- Witness for C1 at the concrete break list `[0, 10]` and time `5`. -/
theorem GetWeekOfDate_eq_specAlgorithm_witness :
    GetWeekOfDate [0, 10] (.dt 5) = .ok (specWeekOfDate [0, 10] 5) :=
  GetWeekOfDate_eq_specAlgorithm 0 [10] 5 (by simp [List.chain'_cons]) (by decide)

/-- C3: `GetWeekOfDate` is monotone non-decreasing on datetimes at or after
the first break of a strictly increasing break list: both calls succeed and
the earlier time gets a week index no larger than the later one. -/
theorem GetWeekOfDate_monotone (b0 : Int) (rest : List Int) (t1 t2 : Int)
    (hchain : List.Chain' (· < ·) (b0 :: rest)) (h1 : b0 ≤ t1) (h12 : t1 ≤ t2) :
    ∃ w1 w2, GetWeekOfDate (b0 :: rest) (.dt t1) = .ok w1 ∧
      GetWeekOfDate (b0 :: rest) (.dt t2) = .ok w2 ∧ w1 ≤ w2 := by
  refine ⟨weekLoop t1 (b0 :: rest) 0, weekLoop t2 (b0 :: rest) 0, ?_, ?_, ?_⟩
  · simp only [GetWeekOfDate]
    rw [if_neg (by omega)]
  · simp only [GetWeekOfDate]
    rw [if_neg (by omega)]
  · exact weekLoop_mono h12 rest b0 0 hchain h1

/-- Witness for C3 at the break list `[0, 10, 20]`, times `3 <= 15`. -/
theorem GetWeekOfDate_monotone_witness :
    ∃ w1 w2, GetWeekOfDate [0, 10, 20] (.dt 3) = .ok w1 ∧
      GetWeekOfDate [0, 10, 20] (.dt 15) = .ok w2 ∧ w1 ≤ w2 :=
  GetWeekOfDate_monotone 0 [10, 20] 3 15 (by simp [List.chain'_cons]) (by decide) (by decide)

/-- C5: on a strictly increasing break list, `GetWeekOfDate` of any datetime
at or after the first break returns an integer `>= 0`. -/
theorem GetWeekOfDate_nonneg (b0 : Int) (rest : List Int) (t : Int)
    (hchain : List.Chain' (· < ·) (b0 :: rest)) (ht : b0 ≤ t) :
    ∃ w, GetWeekOfDate (b0 :: rest) (.dt t) = .ok w ∧ 0 ≤ w := by
  refine ⟨weekLoop t (b0 :: rest) 0, ?_, ?_⟩
  · simp only [GetWeekOfDate]
    rw [if_neg (by omega)]
  · exact weekLoop_ge_acc t rest b0 0 hchain ht

/-- Witness for C5 at the break list `[0, 10]` and time `25`. -/
theorem GetWeekOfDate_nonneg_witness :
    ∃ w, GetWeekOfDate [0, 10] (.dt 25) = .ok w ∧ 0 ≤ w :=
  GetWeekOfDate_nonneg 0 [10] 25 (by simp [List.chain'_cons]) (by decide)

/-- C2 counterexample: with the synthetic break list
`[2011-05-01, 2011-05-01+14d, 2011-05-01+14d+3d]`, `GetWeekOfDate` at the
datetime exactly equal to the second break point does NOT return week
index 2 (it returns 3: the fully-elapsed first interval contributes
`floor(14/7) + 1 = 3` accumulated weeks, and the claimed value 2 ignores
the `+1`). -/
theorem GetWeekOfDate_syntheticBreaks_ne_two :
    GetWeekOfDate
      [epoch2011, epoch2011 + 14 * 86400, epoch2011 + 14 * 86400 + 3 * 86400]
      (.dt (epoch2011 + 14 * 86400)) ≠ .ok 2 := by decide

/-- C2 amended: with the synthetic break list
`[2011-05-01, 2011-05-01+14d, 2011-05-01+14d+3d]`, `GetWeekOfDate` at the
datetime exactly equal to the second break point returns week index 3. -/
theorem GetWeekOfDate_syntheticBreaks_eq_three :
    GetWeekOfDate
      [epoch2011, epoch2011 + 14 * 86400, epoch2011 + 14 * 86400 + 3 * 86400]
      (.dt (epoch2011 + 14 * 86400)) = .ok 3 := by decide

/-- C4: on a nonempty break list, `GetWeekOfDate` raises `TypeError` on every
non-datetime argument, raises `ValueError` on every datetime strictly before
the first break point, and returns a week index (no error) on every datetime
at or after the first break point. -/
theorem GetWeekOfDate_error_iff_invalid (b0 : Int) (rest : List Int) :
    (∀ v : PyObj, v.isDatetime = false →
      GetWeekOfDate (b0 :: rest) v = .error .typeError) ∧
    (∀ t : Int, t < b0 →
      GetWeekOfDate (b0 :: rest) (.dt t) = .error .valueError) ∧
    (∀ t : Int, b0 ≤ t → ∃ w, GetWeekOfDate (b0 :: rest) (.dt t) = .ok w) := by
  refine ⟨?_, ?_, ?_⟩
  · intro v hv
    cases v with
    | dt t => simp [PyObj.isDatetime] at hv
    | str s => rfl
    | int n => rfl
    | none => rfl
  · intro t ht
    simp only [GetWeekOfDate]
    rw [if_pos ht]
  · intro t ht
    refine ⟨weekLoop t (b0 :: rest) 0, ?_⟩
    simp only [GetWeekOfDate]
    rw [if_neg (by omega)]

/-- Witness for C4 at the break list `[0]`: a string argument raises
`TypeError`, the datetime one unit before the break raises `ValueError`, and
the datetime `5` succeeds. -/
theorem GetWeekOfDate_error_iff_invalid_witness :
    GetWeekOfDate [0] (.str "x") = .error .typeError ∧
    GetWeekOfDate [0] (.dt (-1)) = .error .valueError ∧
    ∃ w, GetWeekOfDate [0] (.dt 5) = .ok w :=
  ⟨(GetWeekOfDate_error_iff_invalid 0 []).1 (.str "x") rfl,
   (GetWeekOfDate_error_iff_invalid 0 []).2.1 (-1) (by decide),
   (GetWeekOfDate_error_iff_invalid 0 []).2.2 5 (by decide)⟩

lemma comptonPosLoop_not_dataError :
    ∀ (rows : List (String × Rat)) (acc : List (Char × Rat)),
      isDataError (comptonPosLoop rows acc) = false := by
  intro rows
  induction rows with
  | nil => intro acc; rfl
  | cons row rest ih =>
    intro acc
    rw [comptonPosLoop]
    by_cases hp : row.1.isEmpty
    · simp [hp, isDataError]
    · simp [hp, ih]

/-- C7: on a run whose type is not `"Data-Source calibration"`, each of the
four source-run accessors raises `ValueError` and performs no trending/DAQ
database operation (no connection, no cursor execution: the logged operation
list is empty). -/
theorem accessors_valueError_no_query (env : Env) (runNo : Nat)
    (h : env.runType runNo ≠ "Data-Source calibration") :
    GetNominalSourceLocationOfRun env runNo = (.error .valueError, []) ∧
    GetSourceTypeOfRun env runNo = (.error .valueError, []) ∧
    GetComptonSourceLocationOfRun env runNo = (.error .valueError, []) ∧
    GetPurityOfRun env runNo = (.error .valueError, []) := by
  refine ⟨?_, ?_, ?_, ?_⟩ <;>
    simp [GetNominalSourceLocationOfRun, GetSourceTypeOfRun,
      GetComptonSourceLocationOfRun, GetPurityOfRun, GetTypeOfRun, h]

/-- Witness for C7 on the physics-run environment. -/
theorem accessors_valueError_no_query_witness :
    GetNominalSourceLocationOfRun envPhysics 6336 = (.error .valueError, []) ∧
    GetSourceTypeOfRun envPhysics 6336 = (.error .valueError, []) ∧
    GetComptonSourceLocationOfRun envPhysics 6336 = (.error .valueError, []) ∧
    GetPurityOfRun envPhysics 6336 = (.error .valueError, []) :=
  accessors_valueError_no_query envPhysics 6336 (by decide)

/-- C8: on a source-calibration run, `GetComptonSourceLocationOfRun` raises
`DataError` exactly when its trending query returns a row count other than 3,
and (when additionally the source is thorium, so the purity guard passes)
`GetPurityOfRun` raises `DataError` exactly when its query returns a row
count other than 1; in both functions the logged DAQ interaction is a single
connection plus a single query execution, so a mismatch propagates with no
retry. -/
theorem rowcount_dataError_iff (env : Env) (runNo : Nat)
    (hsrc : env.runType runNo = "Data-Source calibration") :
    (isDataError (GetComptonSourceLocationOfRun env runNo).1 = true ↔
      (env.comptonRows runNo).length ≠ 3) ∧
    (GetComptonSourceLocationOfRun env runNo).2 =
      [.makeConnection, .execute comptonQuery (toString runNo)] ∧
    (env.sourceType runNo ∈ ["Th-228:weak", "Th-228:strong"] →
      (isDataError (GetPurityOfRun env runNo).1 = true ↔
        (env.purityRows runNo).length ≠ 1) ∧
      (GetPurityOfRun env runNo).2 =
        [.makeConnection, .execute purityQuery (toString runNo)]) := by
  refine ⟨?_, ?_, ?_⟩
  · by_cases hlen : (env.comptonRows runNo).length = 3
    · simp [GetComptonSourceLocationOfRun, GetTypeOfRun, hsrc, hlen,
        comptonPosLoop_not_dataError]
    · simp [GetComptonSourceLocationOfRun, GetTypeOfRun, hsrc, hlen, isDataError]
  · by_cases hlen : (env.comptonRows runNo).length = 3
    · simp [GetComptonSourceLocationOfRun, GetTypeOfRun, hsrc, hlen]
    · simp [GetComptonSourceLocationOfRun, GetTypeOfRun, hsrc, hlen]
  · intro hth
    by_cases hlen : (env.purityRows runNo).length = 1
    · simp [GetPurityOfRun, GetTypeOfRun, hsrc, hth, hlen, isDataError]
    · simp [GetPurityOfRun, GetTypeOfRun, hsrc, hth, hlen, isDataError]

/-- Witness for C8 on the source-run environment (row counts 3 and 1). -/
theorem rowcount_dataError_iff_witness :
    (isDataError (GetComptonSourceLocationOfRun envSource 6336).1 = true ↔
      (envSource.comptonRows 6336).length ≠ 3) ∧
    (GetComptonSourceLocationOfRun envSource 6336).2 =
      [.makeConnection, .execute comptonQuery (toString 6336)] ∧
    (envSource.sourceType 6336 ∈ ["Th-228:weak", "Th-228:strong"] →
      (isDataError (GetPurityOfRun envSource 6336).1 = true ↔
        (envSource.purityRows 6336).length ≠ 1) ∧
      (GetPurityOfRun envSource 6336).2 =
        [.makeConnection, .execute purityQuery (toString 6336)]) :=
  rowcount_dataError_iff envSource 6336 (by decide)

/-- C9: `GetStartTimeOfRun` — which strips the last 5 characters (timezone
suffix) and then the last 4 (millisecond suffix) of the collaborator's
`startTime` string — returns exactly the parse, with the fixed format
`%Y-%m-%dT%H:%M:%S`, of the string with its last 9 characters removed. -/
theorem GetStartTimeOfRun_strips_nine (env : Env) (runNo : Nat) :
    GetStartTimeOfRun env runNo =
      strptimeYmdHMS (pyDropLast (env.startTimeStr runNo) 9) := by
  unfold GetStartTimeOfRun pyDropLast
  congr 1
  generalize env.startTimeStr runNo = s
  rw [List.length_take, List.take_take]
  congr 1
  omega

/-- C6: when the three reference start-time lookups succeed, a first call to
the stateful `GetWeekOfDate` (cache empty), with any argument whatsoever,
leaves cached exactly the 4-entry list `[2011-05-01, start(2332) - 10s,
start(2401) - 10s, start(2424) - 10s]`; and any call on an already-built
cache leaves it unchanged. -/
theorem breakCache_built_once (env : Env) (t1 t2 t3 : Int)
    (h1 : GetStartTimeOfRun env 2332 = some t1)
    (h2 : GetStartTimeOfRun env 2401 = some t2)
    (h3 : GetStartTimeOfRun env 2424 = some t3) :
    (∀ v : PyObj, (GetWeekOfDateStateful env none v).2 =
      some [epoch2011, t1 - 10, t2 - 10, t3 - 10]) ∧
    (∀ (bs : List Int) (v : PyObj),
      (GetWeekOfDateStateful env (some bs) v).2 = some bs) := by
  constructor
  · intro v
    simp [GetWeekOfDateStateful, h1, h2, h3]
  · intro bs v
    rfl

/-- Witness for C6 on the source-run environment, whose start-time strings
parse to 2011-09-12T03:04:05. -/
theorem breakCache_built_once_witness :
    (GetWeekOfDateStateful envSource none (.dt epoch2011)).2 =
      some [epoch2011, civilToSeconds 2011 9 12 3 4 5 - 10,
        civilToSeconds 2011 9 12 3 4 5 - 10, civilToSeconds 2011 9 12 3 4 5 - 10] :=
  (breakCache_built_once envSource (civilToSeconds 2011 9 12 3 4 5)
    (civilToSeconds 2011 9 12 3 4 5) (civilToSeconds 2011 9 12 3 4 5)
    (by decide) (by decide) (by decide)).1 (.dt epoch2011)

/-- C10: the lazy break-list build runs before input validation — when the
three start-time lookups succeed, a first call (cache empty) with a
non-datetime argument builds and caches the full 4-entry list and raises
`TypeError`, a first call with a datetime before the first break point
builds and caches the same list and raises `ValueError`, and any later call
(failing or not) leaves the cached list unchanged. -/
theorem breakCache_built_before_validation (env : Env) (t1 t2 t3 : Int)
    (h1 : GetStartTimeOfRun env 2332 = some t1)
    (h2 : GetStartTimeOfRun env 2401 = some t2)
    (h3 : GetStartTimeOfRun env 2424 = some t3) :
    (∀ v : PyObj, v.isDatetime = false →
      GetWeekOfDateStateful env none v =
        (.error .typeError, some [epoch2011, t1 - 10, t2 - 10, t3 - 10])) ∧
    (∀ t : Int, t < epoch2011 →
      GetWeekOfDateStateful env none (.dt t) =
        (.error .valueError, some [epoch2011, t1 - 10, t2 - 10, t3 - 10])) ∧
    (∀ (bs : List Int) (v : PyObj),
      (GetWeekOfDateStateful env (some bs) v).2 = some bs) := by
  refine ⟨?_, ?_, ?_⟩
  · intro v hv
    cases v with
    | dt t => simp [PyObj.isDatetime] at hv
    | str s => simp [GetWeekOfDateStateful, h1, h2, h3, GetWeekOfDate]
    | int n => simp [GetWeekOfDateStateful, h1, h2, h3, GetWeekOfDate]
    | none => simp [GetWeekOfDateStateful, h1, h2, h3, GetWeekOfDate]
  · intro t ht
    simp only [GetWeekOfDateStateful, h1, h2, h3, GetWeekOfDate]
    rw [if_pos ht]
  · intro bs v
    rfl

/-- Witness for C10 on the source-run environment: a string argument and the
datetime `0` (before 2011-05-01). -/
theorem breakCache_built_before_validation_witness :
    GetWeekOfDateStateful envSource none (.dt 0) =
      (.error .valueError, some [epoch2011, civilToSeconds 2011 9 12 3 4 5 - 10,
        civilToSeconds 2011 9 12 3 4 5 - 10, civilToSeconds 2011 9 12 3 4 5 - 10]) :=
  (breakCache_built_before_validation envSource (civilToSeconds 2011 9 12 3 4 5)
    (civilToSeconds 2011 9 12 3 4 5) (civilToSeconds 2011 9 12 3 4 5)
    (by decide) (by decide) (by decide)).2.1 0 (by decide)
